import Mathlib

/-!
Verification development for the AEIPTV Telegram sales bot
(`src/aeiptv_bot.py`).

The bot is a single python module.  Its conversation engine is embedded
shallowly below:

* `Session` models one conversation's slice of the global `USER_STATE`
  dictionary (`chat_id -> {"lang", "package", "phone", "awaiting_phone"}`);
  a key that is absent from the python dict is modelled as `none` / `false`,
  which is behaviourally exact because the code only ever reads those keys
  with `.get` and truthiness tests.
* The handlers `any_text`, `on_contact` and `on_button` are translated
  statement by statement.  Network sends become entries in the result lists:
  `replies` (messages to the user, in order), `notes` (admin notifications
  attempted, in order) and `orders` (records appended to `customers.jsonl`
  by `save_customer`).  An uncaught python exception is modelled by the
  `raised` flag (mutations performed before the raise persist, exactly as
  with the global `USER_STATE` dict).
* Nondeterministic ambient inputs are passed explicitly: `ts` stands for
  `datetime.now()` and `notify_ok` for whether the (single, try/except
  guarded) admin `send_message` of the handler call succeeds.
-/

/-- Python `str.strip` whitespace class (ASCII part; all inputs considered
here are ASCII, the full python class adds some unicode spaces). -/
def isPyWs (c : Char) : Bool :=
  c = ' ' || c = '\t' || c = '\n' || c = '\r' || c = '\x0b' || c = '\x0c'

/-- Python `str.strip()`: drop whitespace from both ends. -/
def pyStrip (s : String) : String :=
  String.mk (((s.data.dropWhile isPyWs).reverse.dropWhile isPyWs).reverse)

/-- Boolean list-prefix test (used to model python `str.startswith`). -/
def listIsPrefixOf : List Char → List Char → Bool
  | [], _ => true
  | _ :: _, [] => false
  | a :: as, b :: bs => if a = b then listIsPrefixOf as bs else false

/-- Python `s.startswith(p)`. -/
def pyStartsWith (s p : String) : Bool := listIsPrefixOf p.data s.data

/-- Drop the first `n` characters of a string.  The handlers only apply it
right after a `startswith` test on a prefix containing the single `"|"`, so
it is exactly `s.split("|", 1)[1]`. -/
def pyDrop (s : String) (n : Nat) : String := String.mk (s.data.drop n)

/-- Character class `[\d\s\-()]` of `PHONE_RE` (ASCII `\s`). -/
def isPhoneTail (c : Char) : Bool :=
  c.isDigit || isPyWs c || c = '-' || c = '(' || c = ')'

/-- `PHONE_RE = re.compile(r"^\+?\d[\d\s\-()]{6,}$")` (src line 81), as the
predicate `PHONE_RE.match(txt)` is truthy.  The text it is applied to is
already stripped, so the trailing-newline subtlety of python `$` cannot
arise and `$` is end of string. -/
def PHONE_RE_match (s : String) : Bool :=
  match s.data with
  | [] => false
  | c :: cs =>
    match (if c = '+' then cs else c :: cs) with
    | [] => false
    | d :: tl => d.isDigit && decide (6 ≤ tl.length) && tl.all isPhoneTail

/-- `normalize_phone` (src lines 83-87): strip, map a leading `"00"` to
`"+"`, then `re.sub(r"[^\d+]", "", s)` keeps only digits and plus signs. -/
def normalize_phone (s : String) : String :=
  let s1 := pyStrip s
  let s2 := if pyStartsWith s1 "00" then "+" ++ pyDrop s1 2 else s1
  String.mk (s2.data.filter (fun c => c.isDigit || c = '+'))

/-- One entry of the `PACKAGES` configuration dict (src lines 29-58). -/
structure Package where
  code : String
  price_aed : Nat
  details_en : String
  details_ar : String
  payment_url : String
  deriving DecidableEq

/-- The `PACKAGES` dict (src lines 29-58), as an association list keyed by
the display name, in insertion order. -/
def PACKAGES : List (String × Package) :=
  [("AEIPTV Kids",
    { code := "kids", price_aed := 70,
      details_en := "\n• Kids-safe channels\n• Cartoons & Educational shows\n• Works on 1 device\n",
      details_ar := "\n• قنوات للأطفال\n• كرتون وبرامج تعليمية\n• يعمل على جهاز واحد\n",
      payment_url := "https://buy.stripe.com/3cIbJ29I94yA92g2AV5kk04" }),
   ("AEIPTV Casual",
    { code := "casual", price_aed := 75,
      details_en := "\n• 10,000+ Live Channels\n• 70,000+ Movies (VOD)\n• 12,000+ Series\n• Works on 1 device\n",
      details_ar := "\n• أكثر من 10,000 قناة مباشرة\n• 70,000+ فيلم (VOD)\n• 12,000+ مسلسل\n• يعمل على جهاز واحد\n",
      payment_url := "https://buy.stripe.com/6oU6oIf2t8OQa6kejD5kk03" }),
   ("AEIPTV Executive",
    { code := "executive", price_aed := 200,
      details_en := "\n• 16,000+ Live Channels\n• 24,000+ Movies (VOD)\n• 14,000+ Series\n• 2 devices • SD/HD/FHD/4K\n",
      details_ar := "\n• 16,000+ قناة مباشرة\n• 24,000+ فيلم (VOD)\n• 14,000+ مسلسل\n• جهازان • SD/HD/FHD/4K\n",
      payment_url := "https://buy.stripe.com/8x23cw07zghi4M0ejD5kk05" }),
   ("AEIPTV Premium",
    { code := "premium", price_aed := 250,
      details_en := "\n• Full combo package\n• 65,000+ Live Channels\n• 180,000+ Movies (VOD)\n• 10,000+ Series\n• Priority support\n",
      details_ar := "\n• باقة كاملة شاملة\n• 65,000+ قناة مباشرة\n• 180,000+ فيلم (VOD)\n• 10,000+ مسلسل\n• دعم أولوية\n",
      payment_url := "https://buy.stripe.com/eVq00k7A15CE92gdfz5kk01" })]

/-- Python `pkg_name in PACKAGES` / `PACKAGES[pkg_name]` as a total lookup. -/
def pkgLookup (pkg_name : String) : Option Package :=
  (PACKAGES.find? (fun p => p.1 = pkg_name)).map Prod.snd

/-- `ADMIN_CHAT_ID` (src line 26); the handlers guard each admin send with
`if ADMIN_CHAT_ID:` i.e. nonzero. -/
def ADMIN_CHAT_ID : Int := 7698278415

/-- One conversation's slice of `USER_STATE` (src lines 61-62).  `set_state`
(src lines 89-91) becomes a record update. -/
structure Session where
  lang : Option String
  package : Option String
  phone : Option String
  awaiting_phone : Bool
  deriving DecidableEq

/-- A session that has never been written: `USER_STATE.get(chat_id, {})`
misses. -/
def freshSession : Session :=
  { lang := none, package := none, phone := none, awaiting_phone := false }

/-- `get_lang` (src lines 93-94): default Arabic. -/
def get_lang (s : Session) : String := s.lang.getD "ar"

/-- The display identity Telegram attaches to an update
(`update.effective_user` / `query.from_user`). -/
structure UserInfo where
  id : Int
  username : Option String
  full_name : String
  deriving DecidableEq

/-- The record `save_customer` (src lines 65-79) appends to
`customers.jsonl` — these are its exact fields, nothing more. -/
structure CustomerRec where
  chat_id : Int
  user_id : Int
  username : Option String
  name : String
  package : Option String
  phone : Option String
  ts : String
  deriving DecidableEq

/-- `save_customer` (src lines 65-79); the append itself is recorded by the
caller in `StepResult.orders`.  `ts` stands for `datetime.now().isoformat`. -/
def save_customer (chat_id : Int) (user : UserInfo) (package : Option String)
    (phone : Option String) (ts : String) : CustomerRec :=
  { chat_id := chat_id, user_id := user.id, username := user.username,
    name := user.full_name, package := package, phone := phone, ts := ts }

/-- `BRAND` (src line 97). -/
def BRAND : String := "AEIPTV"

/-- The keys of the `I18N` dict (src lines 98-176). -/
inductive MsgKey where
  | pick_lang | lang_ar | lang_en | welcome
  | more_info_title | more_info_body
  | btn_more_info | btn_subscribe | subscribe_pick
  | terms | btn_agree | btn_back
  | payment_instructions | btn_pay_now | btn_paid | thank_you
  | breadcrumb_sel | breadcrumb_agree | breadcrumb_paid
  | phone_request | btn_share_phone | phone_saved | phone_invalid
  deriving DecidableEq

/-- The `"ar"` column of `I18N` (src lines 98-176). -/
def i18nAr : MsgKey → String
  | .pick_lang => "اختر اللغة:"
  | .lang_ar => "العربية"
  | .lang_en => "English"
  | .welcome => "مرحباً بك في " ++ BRAND ++ "!\n\nكيف نقدر نساعدك اليوم؟"
  | .more_info_title => "📥 طريقة المشاهدة باستخدام 000 Player"
  | .more_info_body => "1) ثبّت تطبيق 000 Player:\n   • iPhone/iPad: App Store\n   • Android/TV: Google Play\n   • Firestick/Android TV (Downloader): http://aftv.news/6913771\n   • Web (PC, PlayStation, Xbox): https://my.splayer.in\n\n2) أدخل رقم السيرفر: 7765\n3) بعد الدفع والتفعيل، نرسل لك بيانات الدخول."
  | .btn_more_info => "📋 معلومات"
  | .btn_subscribe => "💳 اشتراك"
  | .subscribe_pick => "اختر الباقة:"
  | .terms => "✅ الشروط والملاحظات\n\n• التفعيل بعد تأكيد الدفع.\n• حساب واحد لكل جهاز ما لم تذكر الباقة غير ذلك.\n• الاستخدام على عدة أجهزة قد يسبب تقطيع أو إيقاف الخدمة.\n• لا توجد استرجاعات بعد التفعيل.\n\nهل توافق على المتابعة؟"
  | .btn_agree => "✅ أوافق"
  | .btn_back => "⬅️ رجوع"
  | .payment_instructions => "💳 الدفع\n\nاضغط (ادفع الآن) لإتمام الدفع. ثم ارجع واضغط (دفعت)."
  | .btn_pay_now => "🔗 ادفع الآن"
  | .btn_paid => "✅ دفعت"
  | .thank_you => "🎉 شكراً لاختيارك " ++ BRAND ++ "!\nسنتواصل معك قريباً لتفعيل الخدمة."
  | .breadcrumb_sel => "🧩 تم حفظ اختيارك: {pkg} ({price} درهم)"
  | .breadcrumb_agree => "✅ وافق على المتابعة: {pkg}"
  | .breadcrumb_paid => "🧾 تم الضغط على (دفعت)\n• الباقة: {pkg}\n• الوقت: {ts}"
  | .phone_request => "📞 فضلاً شارك رقم هاتفك للتواصل والتفعيل.\nاضغط (مشاركة رقمي) أو اكتب الرقم مع رمز الدولة (مثال: +9715xxxxxxx)."
  | .btn_share_phone => "📲 مشاركة رقمي"
  | .phone_saved => "✅ تم حفظ رقمك. سنتواصل معك قريباً."
  | .phone_invalid => "❗️الرقم غير صحيح. اكتب الرقم مع رمز الدولة (مثال: +9715xxxxxxx) أو اضغط (مشاركة رقمي)."

/-- The `"en"` column of `I18N` (src lines 98-176). -/
def i18nEn : MsgKey → String
  | .pick_lang => "Choose your language:"
  | .lang_ar => "Arabic"
  | .lang_en => "English"
  | .welcome => "Welcome to " ++ BRAND ++ "!\n\nHow can we help you today?"
  | .more_info_title => "📥 How to Watch with 000 Player"
  | .more_info_body => "1) Install 000 Player:\n   • iPhone/iPad: App Store\n   • Android/TV: Google Play\n   • Firestick/Android TV (Downloader): http://aftv.news/6913771\n   • Web (PC, PlayStation, Xbox): https://my.splayer.in\n\n2) Enter Server Number: 7765\n3) After payment & activation, we will send your login details."
  | .btn_more_info => "📋 More Info"
  | .btn_subscribe => "💳 Subscribe"
  | .subscribe_pick => "Please choose a package:"
  | .terms => "✅ Terms & Notes\n\n• Activation after payment confirmation.\n• One account per device unless package allows more.\n• Using multiple devices may cause buffering or stop service.\n• No refunds after activation.\n\nDo you agree to proceed?"
  | .btn_agree => "✅ I Agree"
  | .btn_back => "⬅️ Back"
  | .payment_instructions => "💳 Payment\n\nTap (Pay Now) to complete payment. Then return and press (I Paid)."
  | .btn_pay_now => "🔗 Pay Now"
  | .btn_paid => "✅ I Paid"
  | .thank_you => "🎉 Thank you for choosing " ++ BRAND ++ "!\nWe’ll contact you soon to activate your account."
  | .breadcrumb_sel => "🧩 Selection saved: {pkg} ({price} AED)"
  | .breadcrumb_agree => "✅ Agreed to proceed: {pkg}"
  | .breadcrumb_paid => "🧾 Payment confirmation clicked\n• Package: {pkg}\n• Time: {ts}"
  | .phone_request => "📞 Please share your phone number so we can contact you to activate.\nTap (Share my number) below, or type it including country code (e.g., +9715xxxxxxx)."
  | .btn_share_phone => "📲 Share my number"
  | .phone_saved => "✅ Thank you! We saved your number. We’ll contact you shortly."
  | .phone_invalid => "❗️That doesn’t look valid. Include country code (e.g., +9715xxxxxxx), or tap (Share my number)."

/-- The `I18N` inner dict lookup `val.get(lang)`: the table has exactly the
`"ar"` and `"en"` columns. -/
def I18N (k : MsgKey) (lang : String) : Option String :=
  if lang = "ar" then some (i18nAr k)
  else if lang = "en" then some (i18nEn k)
  else none

/-- The translation function `t` (src lines 178-183):
`val.get(lang, val.get("en", ""))`.  (With `MsgKey` an enumeration, the
missing-key branch `return str(val)` of the source is unreachable; `t` is
only ever called on keys present in `I18N`.) -/
def t (s : Session) (k : MsgKey) : String :=
  match I18N k (get_lang s) with
  | some v => v
  | none => (I18N k "en").getD ""

/-- `pkg_details_for_lang` (src lines 251-253), applied to the resolved
`Package` value (the source indexes `PACKAGES[pkg_name]`; every call site
reaches it only after the membership check in the `pkg|` branch). -/
def pkg_details_for_lang (pkg : Package) (lang : String) : String :=
  if lang = "ar" then pkg.details_ar else pkg.details_en

/-- One outbound message to the user.  Each constructor stands for one
`reply_text` / `send_message` / `safe_edit_or_send` call site of the
handlers, carrying the data the source interpolates into the text; the
localized text itself is the `t`-rendering of the named `I18N` key and the
keyboard is the one built at that call site. -/
inductive Reply where
  /-- `t("pick_lang")` with `lang_kb()`. -/
  | pickLang
  /-- `t("welcome")` with `main_menu_kb`. -/
  | welcome
  /-- `t("more_info_title") + "\n\n" + t("more_info_body")` with `main_menu_kb`. -/
  | moreInfo
  /-- `t("subscribe_pick")` with `packages_kb()`. -/
  | subscribePick
  /-- the literal `"Package not found."` with `packages_kb()` (src line 358). -/
  | pkgNotFound
  /-- `t("breadcrumb_sel")` formatted with the package and price (src line 362). -/
  | breadcrumbSel (pkg : String) (price : Nat)
  /-- the package detail + terms text with `agree_kb` (src lines 363-366). -/
  | pkgDetail (pkg : String) (price : Nat) (details : String)
  /-- `t("breadcrumb_agree")` formatted with the package (src line 371). -/
  | breadcrumbAgree (pkg : String)
  /-- `t("payment_instructions")` with `pay_kb` (pay-now URL + paid/back buttons). -/
  | payInstructions (pkg : String) (pay_url : String)
  /-- `t("breadcrumb_paid")` formatted with the selection and timestamp (src line 380). -/
  | breadcrumbPaid (pkg : String) (ts : String)
  /-- `t("phone_request")` with `phone_request_kb` (src line 383). -/
  | phoneRequest
  /-- `t("phone_invalid")` with `phone_request_kb` (src line 289). -/
  | phoneInvalid
  /-- `t("phone_saved")` with `ReplyKeyboardRemove()`. -/
  | phoneSaved
  /-- `t("thank_you")` with `main_menu_kb`. -/
  | thankYou
  deriving DecidableEq

/-- One admin notification (`context.bot.send_message(chat_id=ADMIN_CHAT_ID, ...)`),
tagged by its message kind and carrying the data the source interpolates. -/
inductive Note where
  /-- "📞 Phone captured" (src lines 275-282). -/
  | phoneCaptured (user : UserInfo) (package : Option String) (phone : String)
  /-- "📞 Phone captured via Contact" (src lines 307-314). -/
  | phoneCapturedContact (user : UserInfo) (package : Option String) (phone : String)
  /-- "🆕 I Paid clicked (phone pending)" (src lines 387-394). -/
  | paidPending (user : UserInfo) (package : String)
  deriving DecidableEq

/-- Everything one handler invocation does: the updated session, the
messages to the user, the admin notifications attempted (`notes`) and the
ones actually delivered (`delivered`, empty when the send raised and was
caught), the `customers.jsonl` appends, and whether the handler itself
escaped with an uncaught exception. -/
structure StepResult where
  session : Session
  replies : List Reply
  notes : List Note
  delivered : List Note
  orders : List CustomerRec
  raised : Bool
  deriving DecidableEq

/-- Body of `any_text` (src lines 263-295) after
`txt = (update.message.text or "").strip()`. -/
def any_text_txt (chat_id : Int) (user : UserInfo) (s : Session) (txt : String)
    (ts : String) (notify_ok : Bool) : StepResult :=
  if s.awaiting_phone ∧ txt ≠ "" then
    if PHONE_RE_match txt then
      { session := { s with phone := some (normalize_phone txt), awaiting_phone := false },
        replies := [Reply.phoneSaved, Reply.thankYou],
        notes := if ADMIN_CHAT_ID ≠ 0 then
          [Note.phoneCaptured user s.package (normalize_phone txt)] else [],
        delivered := if ADMIN_CHAT_ID ≠ 0 ∧ notify_ok then
          [Note.phoneCaptured user s.package (normalize_phone txt)] else [],
        orders := [save_customer chat_id user s.package (some (normalize_phone txt)) ts],
        raised := false }
    else
      { session := s, replies := [Reply.phoneInvalid], notes := [],
        delivered := [], orders := [], raised := false }
  else if s.lang = none then
    { session := s, replies := [Reply.pickLang], notes := [],
      delivered := [], orders := [], raised := false }
  else
    { session := s, replies := [Reply.welcome], notes := [],
      delivered := [], orders := [], raised := false }

/-- `any_text` (src lines 263-295). -/
def any_text (chat_id : Int) (user : UserInfo) (s : Session) (text : String)
    (ts : String) (notify_ok : Bool) : StepResult :=
  any_text_txt chat_id user s (pyStrip text) ts notify_ok

/-- `on_contact` (src lines 297-319). -/
def on_contact (chat_id : Int) (user : UserInfo) (s : Session)
    (contact_phone : Option String) (ts : String) (notify_ok : Bool) : StepResult :=
  { session := { s with phone := some (normalize_phone (contact_phone.getD "")), awaiting_phone := false },
    replies := [Reply.phoneSaved, Reply.thankYou],
    notes := if ADMIN_CHAT_ID ≠ 0 then
      [Note.phoneCapturedContact user s.package (normalize_phone (contact_phone.getD ""))] else [],
    delivered := if ADMIN_CHAT_ID ≠ 0 ∧ notify_ok then
      [Note.phoneCapturedContact user s.package (normalize_phone (contact_phone.getD ""))] else [],
    orders := [save_customer chat_id user s.package (some (normalize_phone (contact_phone.getD ""))) ts],
    raised := false }

/-- Body of `on_button` (src lines 321-399) after
`data = (query.data or "").strip()`.  In the `agree|` branch the source
sends the breadcrumb first and then evaluates
`pay_kb(chat_id, pkg_name)`, whose `PACKAGES[pkg_name]` lookup raises
`KeyError` when the package name is unknown — that path returns with
`raised := true` after the breadcrumb. -/
def on_button_data (chat_id : Int) (user : UserInfo) (s : Session) (data : String)
    (ts : String) (notify_ok : Bool) : StepResult :=
  if pyStartsWith data "lang|" then
    { session := { s with lang := some (if pyDrop data 5 = "ar" ∨ pyDrop data 5 = "en"
        then pyDrop data 5 else "ar") },
      replies := [Reply.welcome],
      notes := [], delivered := [], orders := [], raised := false }
  else if s.lang = none then
    { session := s, replies := [Reply.pickLang], notes := [],
      delivered := [], orders := [], raised := false }
  else if data = "more_info" then
    { session := s, replies := [Reply.moreInfo], notes := [],
      delivered := [], orders := [], raised := false }
  else if data = "subscribe" then
    { session := s, replies := [Reply.subscribePick], notes := [],
      delivered := [], orders := [], raised := false }
  else if data = "back_home" then
    { session := s, replies := [Reply.welcome], notes := [],
      delivered := [], orders := [], raised := false }
  else if pyStartsWith data "pkg|" then
    match pkgLookup (pyDrop data 4) with
    | none =>
      { session := s, replies := [Reply.pkgNotFound], notes := [],
        delivered := [], orders := [], raised := false }
    | some p =>
      { session := { s with package := some (pyDrop data 4) },
        replies := [Reply.breadcrumbSel (pyDrop data 4) p.price_aed,
                    Reply.pkgDetail (pyDrop data 4) p.price_aed
                      (pkg_details_for_lang p
                        (get_lang { s with package := some (pyDrop data 4) }))],
        notes := [], delivered := [], orders := [], raised := false }
  else if pyStartsWith data "agree|" then
    match pkgLookup (pyDrop data 6) with
    | some p =>
      { session := s,
        replies := [Reply.breadcrumbAgree (pyDrop data 6),
                    Reply.payInstructions (pyDrop data 6) p.payment_url],
        notes := [], delivered := [], orders := [], raised := false }
    | none =>
      { session := s, replies := [Reply.breadcrumbAgree (pyDrop data 6)],
        notes := [], delivered := [], orders := [], raised := true }
  else if pyStartsWith data "paid|" then
    { session := { s with awaiting_phone := true },
      replies := [Reply.breadcrumbPaid (s.package.getD (pyDrop data 5)) ts, Reply.phoneRequest],
      notes := if ADMIN_CHAT_ID ≠ 0 then
        [Note.paidPending user (s.package.getD (pyDrop data 5))] else [],
      delivered := if ADMIN_CHAT_ID ≠ 0 ∧ notify_ok then
        [Note.paidPending user (s.package.getD (pyDrop data 5))] else [],
      orders := [], raised := false }
  else
    { session := s, replies := [Reply.welcome], notes := [],
      delivered := [], orders := [], raised := false }

/-- `on_button` (src lines 321-399). -/
def on_button (chat_id : Int) (user : UserInfo) (s : Session) (data : String)
    (ts : String) (notify_ok : Bool) : StepResult :=
  on_button_data chat_id user s (pyStrip data) ts notify_ok

/-- A normalized inbound event, routed exactly as `main` registers the
handlers (src lines 406-410): callback queries to `on_button`, contact
shares to `on_contact`, other non-command text to `any_text`. -/
inductive Event where
  | text (msg : String)
  | button (data : String)
  | contact (phone_number : Option String)
  deriving DecidableEq

/-- Dispatch one event to its handler. -/
def step (chat_id : Int) (user : UserInfo) (s : Session) (e : Event)
    (ts : String) (notify_ok : Bool) : StepResult :=
  match e with
  | .text m => any_text chat_id user s m ts notify_ok
  | .button d => on_button chat_id user s d ts notify_ok
  | .contact p => on_contact chat_id user s p ts notify_ok

/-- Accumulated outcome of a sequence of events. -/
structure RunResult where
  session : Session
  replies : List Reply
  notes : List Note
  delivered : List Note
  orders : List CustomerRec
  raises : Nat
  deriving DecidableEq

/-- Apply a list of events in order, starting at event index `i`; `tss i`
and `oks i` are the timestamp and admin-delivery outcome of the `i`-th
event.  (The Telegram dispatcher catches an exception escaping a handler
and goes on to the next update, and `USER_STATE` mutations made before the
raise persist, so the run continues from the step's session either way.) -/
def runFrom (chat_id : Int) (user : UserInfo) (tss : Nat → String) (oks : Nat → Bool) :
    Nat → Session → List Event → RunResult
  | _, s, [] =>
    { session := s, replies := [], notes := [], delivered := [], orders := [], raises := 0 }
  | i, s, e :: rest =>
    let r := step chat_id user s e (tss i) (oks i)
    let rr := runFrom chat_id user tss oks (i + 1) r.session rest
    { session := rr.session, replies := r.replies ++ rr.replies,
      notes := r.notes ++ rr.notes, delivered := r.delivered ++ rr.delivered,
      orders := r.orders ++ rr.orders,
      raises := (if r.raised then 1 else 0) + rr.raises }

/-- Apply a list of events in order from a given session. -/
def run (chat_id : Int) (user : UserInfo) (tss : Nat → String) (oks : Nat → Bool)
    (s : Session) (evs : List Event) : RunResult :=
  runFrom chat_id user tss oks 0 s evs

/-- A concrete buyer identity for the concrete scenarios. -/
def buyer : UserInfo := { id := 42, username := some "buyer", full_name := "Test Buyer" }

/-- A constant timestamp oracle (every step happens in the same second). -/
def tsConst : Nat → String := fun _ => "2026-10-12T00:00:00"

/-- All admin sends succeed. -/
def oksTrue : Nat → Bool := fun _ => true

/-- The spec §8 scenario: choose language "en", tap subscribe, select the
250 AED premium package (catalog key "AEIPTV Premium"), agree, tap I-paid,
send the phone, send the proof text. -/
def scenarioEvents : List Event :=
  [Event.button "lang|en", Event.button "subscribe",
   Event.button "pkg|AEIPTV Premium", Event.button "agree|AEIPTV Premium",
   Event.button "paid|AEIPTV Premium",
   Event.text "+971501234567", Event.text "TXN123"]

/-- The spec §8 repeat-purchase scenario: a completed flow followed by a
second I-paid / phone round. -/
def repeatEvents : List Event :=
  [Event.button "lang|en", Event.button "subscribe",
   Event.button "pkg|AEIPTV Premium", Event.button "agree|AEIPTV Premium",
   Event.button "paid|AEIPTV Premium", Event.text "+971501234567",
   Event.button "paid|AEIPTV Premium", Event.text "+971501234567"]

/-- The customer record both completed rounds of `repeatEvents` append. -/
def premiumRec : CustomerRec :=
  { chat_id := 1, user_id := 42, username := some "buyer", name := "Test Buyer",
    package := some "AEIPTV Premium", phone := some "+971501234567",
    ts := "2026-10-12T00:00:00" }

/-- A session right after choosing English on a fresh conversation. -/
def sessionEn : Session :=
  { lang := some "en", package := none, phone := none, awaiting_phone := false }

/-- A session mid-flow: English chosen, the premium package selected,
awaiting the phone number. -/
def sessionAwaitPhone : Session :=
  { lang := some "en", package := some "AEIPTV Premium", phone := none,
    awaiting_phone := true }

/-- A session with English chosen and the kids package selected. -/
def sessionKids : Session :=
  { lang := some "en", package := some "AEIPTV Kids", phone := none,
    awaiting_phone := false }

/-! ## String helper lemmas -/

theorem string_data_append (a b : String) : (a ++ b).data = a.data ++ b.data := by
  cases a
  cases b
  rfl

theorem string_mk_data (s : String) : String.mk s.data = s := by
  cases s
  rfl

theorem listIsPrefixOf_self_append (p rest : List Char) :
    listIsPrefixOf p (p ++ rest) = true := by
  induction p with
  | nil => rfl
  | cons a as ih => simp [listIsPrefixOf, ih]

theorem listIsPrefixOf_ne_head (a b : Char) (as bs : List Char) (h : a ≠ b) :
    listIsPrefixOf (a :: as) (b :: bs) = false := by
  simp [listIsPrefixOf, h]

theorem pkg_data_not_lang (code : String) :
    pyStartsWith ("pkg|" ++ code) "lang|" = false := by
  unfold pyStartsWith
  rw [string_data_append]
  exact listIsPrefixOf_ne_head 'l' 'p' _ _ (by decide)

theorem pkg_data_starts (code : String) :
    pyStartsWith ("pkg|" ++ code) "pkg|" = true := by
  unfold pyStartsWith
  rw [string_data_append]
  exact listIsPrefixOf_self_append _ _

theorem pkg_data_drop (code : String) : pyDrop ("pkg|" ++ code) 4 = code := by
  unfold pyDrop
  rw [string_data_append]
  exact string_mk_data code

theorem pkg_append_ne (code w : String) (hw : w.data.head? ≠ some 'p') :
    "pkg|" ++ code ≠ w := by
  intro h
  have h2 := congrArg String.data h
  rw [string_data_append] at h2
  apply hw
  rw [← h2]
  rfl

theorem admin_nonzero : ADMIN_CHAT_ID ≠ 0 := by decide

/-! ## Step / run auxiliary lemmas -/

theorem on_button_session_oracle (chat_id : Int) (user : UserInfo) (s : Session)
    (d ts1 ts2 : String) (ok1 ok2 : Bool) :
    (on_button chat_id user s d ts1 ok1).session =
    (on_button chat_id user s d ts2 ok2).session := by
  unfold on_button on_button_data
  by_cases h1 : pyStartsWith (pyStrip d) "lang|" = true
  · simp only [if_pos h1]
  · simp only [if_neg h1]
    by_cases h2 : s.lang = none
    · simp only [if_pos h2]
    · simp only [if_neg h2]
      by_cases h3 : pyStrip d = "more_info"
      · simp only [if_pos h3]
      · simp only [if_neg h3]
        by_cases h4 : pyStrip d = "subscribe"
        · simp only [if_pos h4]
        · simp only [if_neg h4]
          by_cases h5 : pyStrip d = "back_home"
          · simp only [if_pos h5]
          · simp only [if_neg h5]
            by_cases h6 : pyStartsWith (pyStrip d) "pkg|" = true
            · simp only [if_pos h6]
            · simp only [if_neg h6]
              by_cases h7 : pyStartsWith (pyStrip d) "agree|" = true
              · simp only [if_pos h7]
              · simp only [if_neg h7]
                by_cases h8 : pyStartsWith (pyStrip d) "paid|" = true
                · simp only [if_pos h8]
                · simp only [if_neg h8]

theorem step_session_oracle (chat_id : Int) (user : UserInfo) (s : Session) (e : Event)
    (ts1 ts2 : String) (ok1 ok2 : Bool) :
    (step chat_id user s e ts1 ok1).session = (step chat_id user s e ts2 ok2).session := by
  cases e with
  | text m =>
    simp only [step, any_text, any_text_txt]
    split_ifs <;> rfl
  | button d =>
    exact on_button_session_oracle chat_id user s d ts1 ts2 ok1 ok2
  | contact p =>
    rfl

theorem runFrom_session_oracle (chat_id : Int) (user : UserInfo)
    (tss1 tss2 : Nat → String) (oks1 oks2 : Nat → Bool) :
    ∀ (evs : List Event) (i j : Nat) (s : Session),
      (runFrom chat_id user tss1 oks1 i s evs).session =
      (runFrom chat_id user tss2 oks2 j s evs).session := by
  intro evs
  induction evs with
  | nil => intro i j s; rfl
  | cons e rest ih =>
    intro i j s
    show (runFrom chat_id user tss1 oks1 (i + 1)
            (step chat_id user s e (tss1 i) (oks1 i)).session rest).session =
         (runFrom chat_id user tss2 oks2 (j + 1)
            (step chat_id user s e (tss2 j) (oks2 j)).session rest).session
    rw [step_session_oracle chat_id user s e (tss1 i) (tss2 j) (oks1 i) (oks2 j)]
    exact ih (i + 1) (j + 1) _

/-! ## Claims -/

/-- C1 (counterexample): applying the spec §8 scenario [choose language
"en", subscribe, select the 250 AED premium package, agree, I-paid, send
phone "+971501234567", send proof "TXN123"] to a fresh session emits
exactly TWO admin notifications, not the three (selection, agreement,
new-order) the claim states: the selection and agreement breadcrumbs go to
the user, not the admin, and the proof text is never captured. -/
theorem C1_scenario_two_notes :
    (run 1 buyer tsConst oksTrue freshSession scenarioEvents).notes.length = 2 ∧
    (run 1 buyer tsConst oksTrue freshSession scenarioEvents).notes.length ≠ 3 := by
  decide

/-- C1 (amended): the scenario appends exactly one customer record, which
captures the package under its catalog key "AEIPTV Premium" (the 250 AED
package) and the phone "+971501234567" but has no price and no proof
field, and emits exactly two admin notifications — "I Paid clicked (phone
pending)" then "Phone captured" — in that relative order; the proof text
"TXN123" is answered with the welcome menu and recorded nowhere; no
handler raises. -/
theorem C1_scenario_run :
    (run 1 buyer tsConst oksTrue freshSession scenarioEvents).orders = [premiumRec] ∧
    (run 1 buyer tsConst oksTrue freshSession scenarioEvents).notes =
      [Note.paidPending buyer "AEIPTV Premium",
       Note.phoneCaptured buyer (some "AEIPTV Premium") "+971501234567"] ∧
    (run 1 buyer tsConst oksTrue freshSession scenarioEvents).raises = 0 := by
  decide

/-- C2: the claim that a button tap referencing an unknown package code
never raises to the caller is contradicted by the code: on "agree|Bogus"
the handler sends the agreement breadcrumb and then `pay_kb` raises
`KeyError` from the unguarded `PACKAGES[pkg_name]` lookup (the session is
nevertheless left unchanged).  The sibling "pkg|Bogus" branch shows the
graceful fallback that was clearly intended. -/
theorem C2_agree_unknown_raises :
    (on_button 1 buyer sessionEn "agree|Bogus" "2026-10-12T00:00:00" true).raised = true ∧
    (on_button 1 buyer sessionEn "agree|Bogus" "2026-10-12T00:00:00" true).session = sessionEn ∧
    (on_button 1 buyer sessionEn "pkg|Bogus" "2026-10-12T00:00:00" true).raised = false := by
  decide

/-- C3: phone normalization maps "+971501234567" and "00971 50 123 4567"
(the same digits with separators and a leading "00") to the same
leading-"+" canonical form. -/
theorem C3_normalize_canonical :
    normalize_phone "+971501234567" = "+971501234567" ∧
    normalize_phone "00971 50 123 4567" = "+971501234567" := by
  decide

/-- C4: while the session is awaiting a phone number, any nonempty text
that fails `PHONE_RE` — in particular "abc" and "123" — leaves the session
unchanged, emits no admin notification, appends nothing, and replies only
with the validation re-prompt. -/
theorem C4_invalid_phone_reprompt (chat_id : Int) (user : UserInfo) (s : Session)
    (text ts : String) (ok : Bool)
    (hA : s.awaiting_phone = true) (hne : pyStrip text ≠ "")
    (hre : PHONE_RE_match (pyStrip text) = false) :
    any_text chat_id user s text ts ok =
      { session := s, replies := [Reply.phoneInvalid], notes := [],
        delivered := [], orders := [], raised := false } := by
  simp [any_text, any_text_txt, hA, hne, hre]

/-- Witness for C4 at the claim's inputs "abc" and "123". -/
theorem C4_invalid_phone_reprompt_witness :
    any_text 1 buyer sessionAwaitPhone "abc" "2026-10-12T00:00:00" true =
      { session := sessionAwaitPhone, replies := [Reply.phoneInvalid], notes := [],
        delivered := [], orders := [], raised := false } ∧
    any_text 1 buyer sessionAwaitPhone "123" "2026-10-12T00:00:00" true =
      { session := sessionAwaitPhone, replies := [Reply.phoneInvalid], notes := [],
        delivered := [], orders := [], raised := false } :=
  ⟨C4_invalid_phone_reprompt 1 buyer sessionAwaitPhone "abc" "2026-10-12T00:00:00" true
     rfl (by decide) (by decide),
   C4_invalid_phone_reprompt 1 buyer sessionAwaitPhone "123" "2026-10-12T00:00:00" true
     rfl (by decide) (by decide)⟩

/-- C5: a package-selection tap whose code is absent from the catalog (in
a session whose language is chosen, i.e. one that can reach the package
list) leaves the session — in particular its `package` field — unchanged,
replies only with "Package not found." re-offering the package list, and
emits no admin notification. -/
theorem C5_unknown_package_unchanged (chat_id : Int) (user : UserInfo) (s : Session)
    (data code ts : String) (ok : Bool)
    (hd : pyStrip data = "pkg|" ++ code)
    (hl : s.lang ≠ none) (hmiss : pkgLookup code = none) :
    on_button chat_id user s data ts ok =
      { session := s, replies := [Reply.pkgNotFound], notes := [],
        delivered := [], orders := [], raised := false } := by
  have h1 := pkg_data_not_lang code
  have h2 := pkg_append_ne code "more_info" (by decide)
  have h3 := pkg_append_ne code "subscribe" (by decide)
  have h4 := pkg_append_ne code "back_home" (by decide)
  have h5 := pkg_data_starts code
  have h6 := pkg_data_drop code
  simp [on_button, on_button_data, hd, h1, h2, h3, h4, h5, h6, hl, hmiss]

/-- Witness for C5 at the unknown code "Bogus". -/
theorem C5_unknown_package_unchanged_witness :
    on_button 1 buyer sessionKids "pkg|Bogus" "2026-10-12T00:00:00" true =
      { session := sessionKids, replies := [Reply.pkgNotFound], notes := [],
        delivered := [], orders := [], raised := false } :=
  C5_unknown_package_unchanged 1 buyer sessionKids "pkg|Bogus" "Bogus"
    "2026-10-12T00:00:00" true (by decide) (by decide) (by decide)

/-- C6: when a phone is accepted while awaiting one, the handler outcome
with a failing admin send (`notify_ok = false`) still appends the customer
record, still replies with the saved/thank-you messages, still commits the
session transition, and raises nothing — the delivery failure is caught
and only the `delivered` list is empty. -/
theorem C6_notify_failure_commits (chat_id : Int) (user : UserInfo) (s : Session)
    (text ts : String)
    (hA : s.awaiting_phone = true) (hne : pyStrip text ≠ "")
    (hre : PHONE_RE_match (pyStrip text) = true) :
    any_text chat_id user s text ts false =
      { session := { s with phone := some (normalize_phone (pyStrip text)), awaiting_phone := false },
        replies := [Reply.phoneSaved, Reply.thankYou],
        notes := [Note.phoneCaptured user s.package (normalize_phone (pyStrip text))],
        delivered := [],
        orders := [save_customer chat_id user s.package
                     (some (normalize_phone (pyStrip text))) ts],
        raised := false } := by
  simp [any_text, any_text_txt, hA, hne, hre, admin_nonzero]

/-- Witness for C6 at the phone "+971501234567" with the admin send failing. -/
theorem C6_notify_failure_commits_witness :
    any_text 1 buyer sessionAwaitPhone "+971501234567" "2026-10-12T00:00:00" false =
      { session := { lang := some "en", package := some "AEIPTV Premium",
                     phone := some "+971501234567", awaiting_phone := false },
        replies := [Reply.phoneSaved, Reply.thankYou],
        notes := [Note.phoneCaptured buyer (some "AEIPTV Premium") "+971501234567"],
        delivered := [],
        orders := [premiumRec],
        raised := false } :=
  C6_notify_failure_commits 1 buyer sessionAwaitPhone "+971501234567"
    "2026-10-12T00:00:00" rfl (by decide) (by decide)

/-- C7 (counterexample): the two records appended by a completed flow and
a repeated I-paid/phone round are equal field for field (the record has no
generated order id at all — only chat id, user identity, package, phone and
a second-granularity timestamp), so no field of the appended records is an
order id that is unique across records. -/
theorem C7_repeat_records_identical :
    (run 1 buyer tsConst oksTrue freshSession repeatEvents).orders =
      [premiumRec, premiumRec] := by
  decide

/-- C7 (amended): repeating the I-paid-then-phone sequence after a
completed order appends a second record and never overwrites the first
(the ledger grows to two records and the first is still the original), but
the records carry no generated order id and need not be distinct. -/
theorem C7_repeat_appends :
    (run 1 buyer tsConst oksTrue freshSession repeatEvents).orders.length = 2 ∧
    (run 1 buyer tsConst oksTrue freshSession repeatEvents).orders.head? =
      some premiumRec := by
  decide

/-- C8: the final session after a sequence of events is a deterministic
function of the initial session and the event sequence alone — it does not
depend on the ambient timestamps or admin-delivery outcomes, so applying
the same sequence twice from the same initial session yields the same
final session. -/
theorem C8_session_deterministic (chat_id : Int) (user : UserInfo) (s : Session)
    (evs : List Event) (tss1 tss2 : Nat → String) (oks1 oks2 : Nat → Bool) :
    (run chat_id user tss1 oks1 s evs).session =
    (run chat_id user tss2 oks2 s evs).session :=
  runFrom_session_oracle chat_id user tss1 tss2 oks1 oks2 evs 0 0 s

/-- C9: for a session with no language chosen, `get_lang` returns "ar", so
every localized message key renders to its Arabic variant. -/
theorem C9_default_arabic (s : Session) (h : s.lang = none) :
    get_lang s = "ar" ∧ ∀ k : MsgKey, t s k = i18nAr k := by
  constructor
  · simp [get_lang, h]
  · intro k
    simp [t, I18N, get_lang, h]

/-- Witness for C9 at a fresh session and the welcome key. -/
theorem C9_default_arabic_witness :
    get_lang freshSession = "ar" ∧
    t freshSession MsgKey.welcome = i18nAr MsgKey.welcome :=
  ⟨(C9_default_arabic freshSession rfl).1,
   (C9_default_arabic freshSession rfl).2 MsgKey.welcome⟩

/-- C10: no branch of the button handler ever writes the session's `phone`
field (only `lang`, `package` and `awaiting_phone` are written), so a
captured phone number survives every button tap — including unknown tokens
and the raising `agree|` path. -/
theorem C10_button_preserves_phone (chat_id : Int) (user : UserInfo) (s : Session)
    (data ts : String) (ok : Bool) :
    (on_button chat_id user s data ts ok).session.phone = s.phone := by
  unfold on_button on_button_data
  by_cases h1 : pyStartsWith (pyStrip data) "lang|" = true
  · simp only [if_pos h1]
  · simp only [if_neg h1]
    by_cases h2 : s.lang = none
    · simp only [if_pos h2]
    · simp only [if_neg h2]
      by_cases h3 : pyStrip data = "more_info"
      · simp only [if_pos h3]
      · simp only [if_neg h3]
        by_cases h4 : pyStrip data = "subscribe"
        · simp only [if_pos h4]
        · simp only [if_neg h4]
          by_cases h5 : pyStrip data = "back_home"
          · simp only [if_pos h5]
          · simp only [if_neg h5]
            by_cases h6 : pyStartsWith (pyStrip data) "pkg|" = true
            · simp only [if_pos h6]
              cases pkgLookup (pyDrop (pyStrip data) 4) <;> rfl
            · simp only [if_neg h6]
              by_cases h7 : pyStartsWith (pyStrip data) "agree|" = true
              · simp only [if_pos h7]
                cases pkgLookup (pyDrop (pyStrip data) 6) <;> rfl
              · simp only [if_neg h7]
                by_cases h8 : pyStartsWith (pyStrip data) "paid|" = true
                · simp only [if_pos h8]
                · simp only [if_neg h8]
